import Mathlib

/-!
Shallow embedding of the sales reconciliation pipeline of this repository
(src/sales_analysis.py part 1, and load_data in src/dashboard.py).

The pipeline filters a raw transaction table to status Success, coerces
numeric columns, left-joins against a deduplicated item reference to
build the revenue view, and explodes combo transactions into component
rows (one per matching combo-reference row) to build the quantity view.
Missing values are modelled with Option; pandas fillna becomes getD.
-/

namespace VDD

/-- A raw spreadsheet cell of a numeric column, as seen through the
numeric coercion with error coercion: a parseable numeric value, an
unparseable value, or a missing value. -/
inductive Cell where
  | num (q : ℚ)
  | bad
  | null
deriving DecidableEq

/-- Numeric coercion with errors coerced: unparseable and missing cells
both become missing. -/
def toNumeric : Cell → Option ℚ
  | Cell.num q => some q
  | Cell.bad => none
  | Cell.null => none

/-- One raw row of the SalesData sheet (the fields the pipeline reads). -/
structure RawRow where
  invoiceNo : String
  itemName : String
  status : String
  date : Option Int
  timestamp : Option Int
  area : String
  outlet : Option String
  price : Cell
  qty : Cell
  subTotal : Cell
  discount : Cell
  tax : Cell
  finalTotal : Cell
deriving DecidableEq

/-- The raw SalesData table; hasStatus records whether the Status column
exists at all, since indexing a missing column raises a key error in the
source. -/
structure RawSales where
  hasStatus : Bool
  rows : List RawRow
deriving DecidableEq

/-- A cleaned transaction row: status filtered upstream, numeric columns
coerced, outlet defaulted, sales channel derived from the area. -/
structure TxRow where
  invoiceNo : String
  itemName : String
  status : String
  date : Option Int
  timestamp : Option Int
  outlet : String
  salesChannel : String
  price : Option ℚ
  qty : Option ℚ
  subTotal : Option ℚ
  discount : Option ℚ
  tax : Option ℚ
  finalTotal : Option ℚ
deriving DecidableEq

/-- Per-row cleaning: numeric coercion on the six numeric columns, the
outlet default to the literal Unknown, and the channel classification
mapping the Swiggy area to Delivery and everything else to In-Shop. -/
def cleanRow (r : RawRow) : TxRow :=
  { invoiceNo := r.invoiceNo
    itemName := r.itemName
    status := r.status
    date := r.date
    timestamp := r.timestamp
    outlet := r.outlet.getD "Unknown"
    salesChannel := if r.area = "Swiggy" then "Delivery" else "In-Shop"
    price := toNumeric r.price
    qty := toNumeric r.qty
    subTotal := toNumeric r.subTotal
    discount := toNumeric r.discount
    tax := toNumeric r.tax
    finalTotal := toNumeric r.finalTotal }

/-- The transaction cleaner: keep exactly the rows whose status equals
Success, then coerce columns. A missing Status column raises a key error
in the source, modelled as an error result. -/
def cleanSales (s : RawSales) : Except String (List TxRow) :=
  if s.hasStatus then
    Except.ok ((s.rows.filter (fun r => r.status = "Success")).map cleanRow)
  else
    Except.error "KeyError: Status"

/-- One row of the nameRef sheet after column selection and renaming:
raw item name, canonical name, parent category, sub category (each of
the last three possibly missing). -/
structure NameRefRow where
  item : String
  realName : Option String
  parent : Option String
  subCat : Option String
deriving DecidableEq

/-- First-wins deduplication on the raw item name, with the set of
already seen keys as accumulator. -/
def dedupByItemAux : List NameRefRow → List String → List NameRefRow
  | [], _ => []
  | r :: rs, seen =>
    if r.item ∈ seen then dedupByItemAux rs seen
    else r :: dedupByItemAux rs (r.item :: seen)

/-- The cleaned item reference: duplicates dropped keeping the first
occurrence of each raw item name. -/
def df_name_ref_clean (l : List NameRefRow) : List NameRefRow :=
  dedupByItemAux l []

/-- A revenue view row: one transaction enriched with canonical name and
categories. -/
structure ViewRow where
  tx : TxRow
  realItemName : String
  parentCategory : String
  subCategory : String
deriving DecidableEq

/-- A matched join row, with the fill defaults applied: a missing
canonical name falls back to the original item name, missing categories
to Unknown. -/
def enriched (t : TxRow) (n : NameRefRow) : ViewRow :=
  { tx := t
    realItemName := n.realName.getD t.itemName
    parentCategory := n.parent.getD "Unknown"
    subCategory := n.subCat.getD "Unknown" }

/-- An unmatched join row after the fill defaults. -/
def fallbackRow (t : TxRow) : ViewRow :=
  { tx := t
    realItemName := t.itemName
    parentCategory := "Unknown"
    subCategory := "Unknown" }

/-- Left merge of one transaction against the item reference: one output
row per matching reference row, or a single fallback row when the item
name is unmatched. -/
def leftMergeName (ref : List NameRefRow) (t : TxRow) : List ViewRow :=
  match ref.filter (fun n => n.item = t.itemName) with
  | [] => [fallbackRow t]
  | m :: ms => (m :: ms).map (enriched t)

/-- The single row the left merge yields when the reference keys are
unique (as they are after deduplication). -/
def mergeOne (ref : List NameRefRow) (t : TxRow) : ViewRow :=
  match ref.filter (fun n => n.item = t.itemName) with
  | [] => fallbackRow t
  | m :: _ => enriched t m

/-- Left merge of a whole transaction list, preserving row order. -/
def leftMergeAll (ref : List NameRefRow) : List TxRow → List ViewRow
  | [] => []
  | t :: ts => leftMergeName ref t ++ leftMergeAll ref ts

/-- The revenue view: cleaned transactions left-merged with the
deduplicated item reference, with the fill defaults. -/
def df_revenue_analysis (nameRef : List NameRefRow) (txs : List TxRow) : List ViewRow :=
  leftMergeAll (df_name_ref_clean nameRef) txs

/-- One row of the comboRef sheet: combo name, component canonical name,
and the component category hints (the latter two columns are read only
by the dashboard builder). -/
structure ComboRefRow where
  itemName : String
  realItemName : Option String
  category : Option String
  subCat : Option String
deriving DecidableEq

/-- Elementwise equality on possibly missing values as pandas computes
it: a missing value compares unequal to everything, itself included. -/
def optEqStr : Option String → Option String → Bool
  | some a, some b => a = b
  | _, _ => false

/-- Merge-key equality on possibly missing values: in a pandas merge,
missing keys do match each other. -/
def mergeEqStr : Option String → Option String → Bool
  | some a, some b => a = b
  | none, none => true
  | _, _ => false

/-- Scalar multiplication of a possibly missing quantity; a missing
quantity stays missing. -/
def optMul (o : Option ℚ) (k : ℚ) : Option ℚ :=
  o.map (fun q => q * k)

/-- Membership in the combo item set: the item name occurs in some row
of the combo reference. -/
def isComboName (comboRef : List ComboRefRow) (name : String) : Bool :=
  comboRef.any (fun c => c.itemName = name)

/-- A quantity view row before the final fill on the sub category. -/
structure QRowOpt where
  tx : TxRow
  realItemName : Option String
  parentCategory : Option String
  subCategory : Option String
deriving DecidableEq

/-- A quantity view row after the final fill on the sub category. -/
structure QRow where
  tx : TxRow
  realItemName : Option String
  parentCategory : Option String
  subCategory : String
deriving DecidableEq

/-- The final fill with Unknown on the sub category column of the
quantity view. -/
def fillSub (q : QRowOpt) : QRow :=
  { tx := q.tx
    realItemName := q.realItemName
    parentCategory := q.parentCategory
    subCategory := q.subCategory.getD "Unknown" }

/-- Inject an enriched non-combo row into the quantity view row shape. -/
def viewToQ (v : ViewRow) : QRowOpt :=
  { tx := v.tx
    realItemName := some v.realItemName
    parentCategory := some v.parentCategory
    subCategory := some v.subCategory }

/-- The dashboard combo explosion, one emitted row: copy the transaction
row, overwrite the canonical name and the quantity with the original
quantity times one, then resolve categories by first looking the
component canonical name up in the item reference; when absent there,
fall back to the combo reference category hint, and for the sub category
to the component canonical name itself. -/
def emitDash (nameClean : List NameRefRow) (t : TxRow) (c : ComboRefRow) : QRowOpt :=
  match nameClean.filter (fun n => optEqStr n.realName c.realItemName) with
  | m :: _ =>
    { tx := { t with qty := optMul t.qty 1 }
      realItemName := c.realItemName
      parentCategory := m.parent
      subCategory := m.subCat }
  | [] =>
    { tx := { t with qty := optMul t.qty 1 }
      realItemName := c.realItemName
      parentCategory := c.category
      subCategory := match c.subCat with
        | some s => some s
        | none => c.realItemName }

/-- All rows the dashboard builder emits for one combo transaction: one
per combo reference row whose combo name matches the transaction. -/
def explodeTxD (nameClean : List NameRefRow) (comboRef : List ComboRefRow) (t : TxRow) :
    List QRowOpt :=
  (comboRef.filter (fun c => c.itemName = t.itemName)).map (emitDash nameClean t)

/-- The dashboard explosion over a transaction list, preserving order. -/
def explodeAllD (nameClean : List NameRefRow) (comboRef : List ComboRefRow) :
    List TxRow → List QRowOpt
  | [] => []
  | t :: ts => explodeTxD nameClean comboRef t ++ explodeAllD nameClean comboRef ts

/-- The quantity view as built by the dashboard loader: non-combo rows
joined like the revenue view, combo rows exploded, both concatenated,
and the sub category column given a final fill with Unknown. -/
def df_quantity_dashboard (nameRef : List NameRefRow) (comboRef : List ComboRefRow)
    (txs : List TxRow) : List QRow :=
  ((leftMergeAll (df_name_ref_clean nameRef)
      (txs.filter (fun t => !(isComboName comboRef t.itemName)))).map viewToQ
    ++ explodeAllD (df_name_ref_clean nameRef) comboRef
      (txs.filter (fun t => isComboName comboRef t.itemName))).map fillSub

/-- The dashboard loader: clean the raw table, then build both views;
any raised error is caught and surfaced as a failure value, so a
successful result is exactly a pair of views with no diagnostics. -/
def load_data (raw : RawSales) (nameRef : List NameRefRow) (comboRef : List ComboRefRow) :
    Except String (List ViewRow × List QRow) :=
  match cleanSales raw with
  | Except.error e => Except.error e
  | Except.ok txs =>
      Except.ok (df_revenue_analysis nameRef txs, df_quantity_dashboard nameRef comboRef txs)

/-- First-wins deduplication on the canonical name column. -/
def dedupByRealAux : List NameRefRow → List (Option String) → List NameRefRow
  | [], _ => []
  | r :: rs, seen =>
    if r.realName ∈ seen then dedupByRealAux rs seen
    else r :: dedupByRealAux rs (r.realName :: seen)

/-- The item reference deduplicated a second time on the canonical name,
as the script does before re-attaching categories to exploded rows. -/
def dedupByReal (l : List NameRefRow) : List NameRefRow :=
  dedupByRealAux l []

/-- The script combo explosion, one emitted row: categories come only
from a merge with the item reference keyed by canonical name, with the
Unknown fill; the combo reference category columns are never read. -/
def emitSA (saRef : List NameRefRow) (t : TxRow) (c : ComboRefRow) : QRow :=
  match saRef.filter (fun n => mergeEqStr n.realName c.realItemName) with
  | m :: _ =>
    { tx := { t with qty := optMul t.qty 1 }
      realItemName := c.realItemName
      parentCategory := some (m.parent.getD "Unknown")
      subCategory := m.subCat.getD "Unknown" }
  | [] =>
    { tx := { t with qty := optMul t.qty 1 }
      realItemName := c.realItemName
      parentCategory := some "Unknown"
      subCategory := "Unknown" }

/-- All rows the script builder emits for one combo transaction. -/
def explodeTxSA (saRef : List NameRefRow) (comboRef : List ComboRefRow) (t : TxRow) :
    List QRow :=
  (comboRef.filter (fun c => c.itemName = t.itemName)).map (emitSA saRef t)

/-- The script explosion over a transaction list, preserving order. -/
def explodeAllSA (saRef : List NameRefRow) (comboRef : List ComboRefRow) :
    List TxRow → List QRow
  | [] => []
  | t :: ts => explodeTxSA saRef comboRef t ++ explodeAllSA saRef comboRef ts

/-- Inject an enriched non-combo row into the final quantity row shape. -/
def viewToQstr (v : ViewRow) : QRow :=
  { tx := v.tx
    realItemName := some v.realItemName
    parentCategory := some v.parentCategory
    subCategory := v.subCategory }

/-- The quantity view as built by the analysis script: non-combo rows
joined like the revenue view, combo rows exploded with categories from
the item reference deduplicated on canonical name, concatenated. -/
def df_quantity_analysis (nameRef : List NameRefRow) (comboRef : List ComboRefRow)
    (txs : List TxRow) : List QRow :=
  (leftMergeAll (df_name_ref_clean nameRef)
      (txs.filter (fun t => !(isComboName comboRef t.itemName)))).map viewToQstr
  ++ explodeAllSA (dedupByReal (df_name_ref_clean nameRef)) comboRef
      (txs.filter (fun t => isComboName comboRef t.itemName))

/-- Null-skipping sum of the final total column of a transaction list. -/
def sumFinalTx : List TxRow → ℚ
  | [] => 0
  | t :: ts => t.finalTotal.getD 0 + sumFinalTx ts

/-- Null-skipping sum of the final total column of a revenue view. -/
def sumFinalView : List ViewRow → ℚ
  | [] => 0
  | v :: vs => v.tx.finalTotal.getD 0 + sumFinalView vs

/-- The final quantity view rows derived from one combo transaction in
the dashboard builder (emitted rows after the final sub category fill). -/
def explodedRowsD (nameRef : List NameRefRow) (comboRef : List ComboRefRow) (t : TxRow) :
    List QRow :=
  (explodeTxD (df_name_ref_clean nameRef) comboRef t).map fillSub

/-- Concatenation of the final exploded rows over a transaction list. -/
def explodedRowsAllD (nameRef : List NameRefRow) (comboRef : List ComboRefRow) :
    List TxRow → List QRow
  | [] => []
  | t :: ts => explodedRowsD nameRef comboRef t ++ explodedRowsAllD nameRef comboRef ts

/-- Every row kept by the deduplication comes from the input and its key
was not among the already seen keys. -/
theorem mem_dedupByItemAux :
    ∀ (l : List NameRefRow) (seen : List String) (r : NameRefRow),
      r ∈ dedupByItemAux l seen → r ∈ l ∧ r.item ∉ seen
  | [], _, _, h => by simp [dedupByItemAux] at h
  | a :: as, seen, r, h => by
    by_cases ha : a.item ∈ seen
    · rw [dedupByItemAux, if_pos ha] at h
      rcases mem_dedupByItemAux as seen r h with ⟨h1, h2⟩
      exact ⟨List.mem_cons_of_mem a h1, h2⟩
    · rw [dedupByItemAux, if_neg ha] at h
      rcases List.mem_cons.mp h with h | h
      · subst h
        exact ⟨List.mem_cons_self _ _, ha⟩
      · rcases mem_dedupByItemAux as (a.item :: seen) r h with ⟨h1, h2⟩
        exact ⟨List.mem_cons_of_mem a h1,
          fun hs => h2 (List.mem_cons_of_mem _ hs)⟩

/-- The keys of the deduplicated reference are pairwise distinct. -/
theorem nodup_dedup_items :
    ∀ (l : List NameRefRow) (seen : List String),
      ((dedupByItemAux l seen).map (fun r => r.item)).Nodup
  | [], _ => by simp [dedupByItemAux]
  | a :: as, seen => by
    by_cases ha : a.item ∈ seen
    · rw [dedupByItemAux, if_pos ha]
      exact nodup_dedup_items as seen
    · rw [dedupByItemAux, if_neg ha]
      rw [List.map_cons, List.nodup_cons]
      refine ⟨?_, nodup_dedup_items as (a.item :: seen)⟩
      intro hmem
      rcases List.mem_map.mp hmem with ⟨r, hr, he⟩
      have := (mem_dedupByItemAux as (a.item :: seen) r hr).2
      exact this (he ▸ List.mem_cons_self _ _)

/-- In a list whose keys are pairwise distinct, at most one element
matches any given key. -/
theorem filter_key_len_le_one {α β : Type} [DecidableEq β] :
    ∀ (l : List α) (f : α → β) (k : β), (l.map f).Nodup →
      (l.filter (fun a => f a = k)).length ≤ 1
  | [], _, _, _ => by simp
  | a :: as, f, k, h => by
    rw [List.map_cons, List.nodup_cons] at h
    by_cases hk : f a = k
    · rw [List.filter_cons]
      simp only [hk, decide_True, if_true]
      have htail : as.filter (fun b => f b = k) = [] := by
        apply List.filter_eq_nil_iff.mpr
        intro b hb
        simp only [decide_eq_true_eq]
        intro hbk
        exact h.1 (List.mem_map.mpr ⟨b, hb, hbk.trans hk.symm⟩)
      simp [htail]
    · rw [List.filter_cons]
      simp only [hk, decide_False, if_false]
      exact filter_key_len_le_one as f k h.2

/-- After deduplication, each item name matches at most one row. -/
theorem name_ref_clean_filter_len (nameRef : List NameRefRow) (nm : String) :
    ((df_name_ref_clean nameRef).filter (fun r => r.item = nm)).length ≤ 1 :=
  filter_key_len_le_one _ _ _ (nodup_dedup_items nameRef [])

/-- The deduplicated reference is a subset of the raw reference. -/
theorem dedup_sub (nameRef : List NameRefRow) (r : NameRefRow)
    (h : r ∈ df_name_ref_clean nameRef) : r ∈ nameRef :=
  (mem_dedupByItemAux nameRef [] r h).1

/-- When the reference keys are unique, the left merge of one row
collapses to a single output row. -/
theorem leftMergeName_eq_mergeOne (ref : List NameRefRow) (t : TxRow)
    (h : ((ref.filter (fun n => n.item = t.itemName))).length ≤ 1) :
    leftMergeName ref t = [mergeOne ref t] := by
  unfold leftMergeName mergeOne
  cases hf : ref.filter (fun n => n.item = t.itemName) with
  | nil => rfl
  | cons m ms =>
    cases ms with
    | nil => rfl
    | cons m2 ms2 =>
      rw [hf] at h
      simp at h

/-- Against the deduplicated reference, the left merge of one row is
always a single row. -/
theorem leftMergeName_clean (nameRef : List NameRefRow) (t : TxRow) :
    leftMergeName (df_name_ref_clean nameRef) t = [mergeOne (df_name_ref_clean nameRef) t] :=
  leftMergeName_eq_mergeOne _ _ (name_ref_clean_filter_len nameRef t.itemName)

/-- The revenue view is the pointwise image of the transaction list. -/
theorem df_revenue_eq_map (nameRef : List NameRefRow) (txs : List TxRow) :
    df_revenue_analysis nameRef txs = txs.map (mergeOne (df_name_ref_clean nameRef)) := by
  induction txs with
  | nil => rfl
  | cons t ts ih =>
    unfold df_revenue_analysis at ih ⊢
    rw [leftMergeAll, leftMergeName_clean, List.map_cons, ih]
    rfl

/-- The merge never alters the underlying transaction row. -/
theorem mergeOne_tx (ref : List NameRefRow) (t : TxRow) : (mergeOne ref t).tx = t := by
  unfold mergeOne
  cases ref.filter (fun n => n.item = t.itemName) with
  | nil => rfl
  | cons m ms => rfl

/-- The emitted transaction part of a dashboard component row is the
original transaction with the quantity multiplied by one. -/
theorem emitDash_tx (nc : List NameRefRow) (t : TxRow) (c : ComboRefRow) :
    (emitDash nc t c).tx = { t with qty := optMul t.qty 1 } := by
  unfold emitDash
  cases nc.filter (fun n => optEqStr n.realName c.realItemName) with
  | nil => rfl
  | cons m ms => rfl

/-- The emitted transaction part of a script component row is the
original transaction with the quantity multiplied by one. -/
theorem emitSA_tx (saRef : List NameRefRow) (t : TxRow) (c : ComboRefRow) :
    (emitSA saRef t c).tx = { t with qty := optMul t.qty 1 } := by
  unfold emitSA
  cases saRef.filter (fun n => mergeEqStr n.realName c.realItemName) with
  | nil => rfl
  | cons m ms => rfl

/-- Multiplying a possibly missing quantity by one changes nothing. -/
theorem optMul_one (o : Option ℚ) : optMul o 1 = o := by
  cases o with
  | none => rfl
  | some q => simp [optMul]

/-- The dashboard emitted row carries the canonical name of its
component. -/
theorem emitDash_real (nc : List NameRefRow) (t : TxRow) (c : ComboRefRow) :
    (emitDash nc t c).realItemName = c.realItemName := by
  unfold emitDash
  cases nc.filter (fun n => optEqStr n.realName c.realItemName) with
  | nil => rfl
  | cons m ms => rfl

/-- The final sub category fill does not touch the transaction part. -/
theorem fillSub_tx (q : QRowOpt) : (fillSub q).tx = q.tx := rfl

/-- The final sub category fill does not touch the canonical name. -/
theorem fillSub_real (q : QRowOpt) : (fillSub q).realItemName = q.realItemName := rfl

/-- Claim C1: revenue conservation. For every item reference and every
cleaned transaction list, the null-skipping sum of the final total
column over the revenue view equals the same sum over the cleaned
transactions: the left join to the deduplicated item mapping never
changes the monetary totals. -/
theorem C1_revenue_conservation (nameRef : List NameRefRow) (txs : List TxRow) :
    sumFinalView (df_revenue_analysis nameRef txs) = sumFinalTx txs := by
  rw [df_revenue_eq_map]
  induction txs with
  | nil => rfl
  | cons t ts ih =>
    rw [List.map_cons]
    show (mergeOne (df_name_ref_clean nameRef) t).tx.finalTotal.getD 0 + _ = _
    rw [mergeOne_tx, ih]
    rfl

/-- Mapping the merge over a list and projecting back the transaction is
the identity. -/
theorem mergeOne_map_tx (ref : List NameRefRow) (txs : List TxRow) :
    (txs.map (mergeOne ref)).map (fun v => v.tx) = txs := by
  induction txs with
  | nil => rfl
  | cons t ts ih => simp [mergeOne_tx, ih]

/-- Claim C5: row-count invariant. The revenue view has exactly as many
rows as the cleaned transaction list, and projecting the transaction
part back recovers the input list in order: the left join against the
first-wins-deduplicated item mapping never fans out and preserves row
order. -/
theorem C5_row_count_invariant (nameRef : List NameRefRow) (txs : List TxRow) :
    (df_revenue_analysis nameRef txs).length = txs.length
    ∧ (df_revenue_analysis nameRef txs).map (fun v => v.tx) = txs := by
  rw [df_revenue_eq_map]
  exact ⟨by simp, mergeOne_map_tx _ txs⟩

/-- Claim C7: combo-explosion frame property. Every emitted component
row, in either builder, copies the invoice number, date, timestamp,
outlet, sales channel and the monetary fields price, subtotal, discount,
tax and final total of the originating transaction unchanged; only the
canonical name, the quantity and the category columns are rewritten. -/
theorem C7_frame_property (nc saRef : List NameRefRow) (t : TxRow) (c : ComboRefRow) :
    ((emitDash nc t c).tx.invoiceNo = t.invoiceNo
      ∧ (emitDash nc t c).tx.date = t.date
      ∧ (emitDash nc t c).tx.timestamp = t.timestamp
      ∧ (emitDash nc t c).tx.outlet = t.outlet
      ∧ (emitDash nc t c).tx.salesChannel = t.salesChannel
      ∧ (emitDash nc t c).tx.price = t.price
      ∧ (emitDash nc t c).tx.subTotal = t.subTotal
      ∧ (emitDash nc t c).tx.discount = t.discount
      ∧ (emitDash nc t c).tx.tax = t.tax
      ∧ (emitDash nc t c).tx.finalTotal = t.finalTotal)
    ∧ ((emitSA saRef t c).tx.invoiceNo = t.invoiceNo
      ∧ (emitSA saRef t c).tx.date = t.date
      ∧ (emitSA saRef t c).tx.timestamp = t.timestamp
      ∧ (emitSA saRef t c).tx.outlet = t.outlet
      ∧ (emitSA saRef t c).tx.salesChannel = t.salesChannel
      ∧ (emitSA saRef t c).tx.price = t.price
      ∧ (emitSA saRef t c).tx.subTotal = t.subTotal
      ∧ (emitSA saRef t c).tx.discount = t.discount
      ∧ (emitSA saRef t c).tx.tax = t.tax
      ∧ (emitSA saRef t c).tx.finalTotal = t.finalTotal) := by
  rw [emitDash_tx, emitSA_tx]
  exact ⟨⟨rfl, rfl, rfl, rfl, rfl, rfl, rfl, rfl, rfl, rfl⟩,
    ⟨rfl, rfl, rfl, rfl, rfl, rfl, rfl, rfl, rfl, rfl⟩⟩

/-- Claim C10: multiplicity is always one. In both builders, every
emitted component row has a quantity exactly equal to the quantity of
the originating transaction, whatever the combo reference contains; no
per-component multiplier is ever read. -/
theorem C10_multiplicity_always_one (nc saRef : List NameRefRow) (t : TxRow)
    (c : ComboRefRow) :
    (emitDash nc t c).tx.qty = t.qty ∧ (emitSA saRef t c).tx.qty = t.qty := by
  rw [emitDash_tx, emitSA_tx]
  exact ⟨optMul_one t.qty, optMul_one t.qty⟩

/-- Claim C9: fallback determinism for unmapped items. The revenue view
is the pointwise image of the transaction list, and for a transaction
whose item name occurs nowhere in the item reference the produced row
keeps the original item name as canonical name and has parent and sub
category Unknown; being a pure function of its inputs, the result is the
same on every invocation. -/
theorem C9_fallback_determinism (nameRef : List NameRefRow) (txs : List TxRow) (t : TxRow)
    (_ht : t ∈ txs) (habs : ∀ n ∈ nameRef, n.item ≠ t.itemName) :
    df_revenue_analysis nameRef txs = txs.map (mergeOne (df_name_ref_clean nameRef))
    ∧ mergeOne (df_name_ref_clean nameRef) t =
        { tx := t
          realItemName := t.itemName
          parentCategory := "Unknown"
          subCategory := "Unknown" } := by
  refine ⟨df_revenue_eq_map nameRef txs, ?_⟩
  have hfil : (df_name_ref_clean nameRef).filter (fun n => n.item = t.itemName) = [] := by
    apply List.filter_eq_nil_iff.mpr
    intro n hn
    simp only [decide_eq_true_eq]
    exact habs n (dedup_sub nameRef n hn)
  unfold mergeOne
  rw [hfil]
  rfl

def nameRef9 : List NameRefRow :=
  [{ item := "Tea", realName := some "Chai", parent := some "Beverage", subCat := some "Hot" }]

def tx9 : TxRow :=
  { invoiceNo := "I9", itemName := "Coffee", status := "Success", date := none,
    timestamp := none, outlet := "Main", salesChannel := "In-Shop", price := none,
    qty := none, subTotal := none, discount := none, tax := none, finalTotal := none }

/-- Witness for claim C9 at a concrete unmapped transaction. -/
theorem C9_fallback_determinism_witness :
    df_revenue_analysis nameRef9 [tx9] = [tx9].map (mergeOne (df_name_ref_clean nameRef9))
    ∧ mergeOne (df_name_ref_clean nameRef9) tx9 =
        { tx := tx9
          realItemName := tx9.itemName
          parentCategory := "Unknown"
          subCategory := "Unknown" } :=
  C9_fallback_determinism nameRef9 [tx9] tx9 (List.mem_singleton_self tx9) (by decide)

/-- The script emitted row carries the canonical name of its component. -/
theorem emitSA_real (saRef : List NameRefRow) (t : TxRow) (c : ComboRefRow) :
    (emitSA saRef t c).realItemName = c.realItemName := by
  unfold emitSA
  cases saRef.filter (fun n => mergeEqStr n.realName c.realItemName) with
  | nil => rfl
  | cons m ms => rfl

/-- Pushing the final fill inside the explosion over a list. -/
theorem explodeAll_map_fill (nameRef : List NameRefRow) (comboRef : List ComboRefRow) :
    ∀ l : List TxRow,
      (explodeAllD (df_name_ref_clean nameRef) comboRef l).map fillSub
        = explodedRowsAllD nameRef comboRef l
  | [] => rfl
  | t :: ts => by
    rw [explodeAllD, explodedRowsAllD, List.map_append,
      explodeAll_map_fill nameRef comboRef ts]
    rfl

/-- Claim C2: component completeness. For a combo transaction, in both
builders the exploded rows are exactly one per matching combo reference
row, carrying the component canonical names in order, and each emitted
row keeps the invoice number and the quantity of the originating
transaction; each full quantity view is the non-combo join followed by
the concatenation of the exploded rows of the combo transactions. -/
theorem C2_component_completeness (nameRef : List NameRefRow) (comboRef : List ComboRefRow)
    (t : TxRow) (_hc : isComboName comboRef t.itemName = true)
    (r : QRow) (hr : r ∈ explodedRowsD nameRef comboRef t)
    (rs : QRow)
    (hrs : rs ∈ explodeTxSA (dedupByReal (df_name_ref_clean nameRef)) comboRef t)
    (txs : List TxRow) :
    (explodedRowsD nameRef comboRef t).length
        = (comboRef.filter (fun c => c.itemName = t.itemName)).length
    ∧ (explodedRowsD nameRef comboRef t).map (fun q => q.realItemName)
        = (comboRef.filter (fun c => c.itemName = t.itemName)).map (fun c => c.realItemName)
    ∧ (r.tx.invoiceNo = t.invoiceNo ∧ r.tx.qty = t.qty)
    ∧ df_quantity_dashboard nameRef comboRef txs
        = (leftMergeAll (df_name_ref_clean nameRef)
            (txs.filter (fun u => !(isComboName comboRef u.itemName)))).map
              (fun v => fillSub (viewToQ v))
          ++ explodedRowsAllD nameRef comboRef
              (txs.filter (fun u => isComboName comboRef u.itemName))
    ∧ (explodeTxSA (dedupByReal (df_name_ref_clean nameRef)) comboRef t).length
        = (comboRef.filter (fun c => c.itemName = t.itemName)).length
    ∧ (explodeTxSA (dedupByReal (df_name_ref_clean nameRef)) comboRef t).map
          (fun q => q.realItemName)
        = (comboRef.filter (fun c => c.itemName = t.itemName)).map (fun c => c.realItemName)
    ∧ (rs.tx.invoiceNo = t.invoiceNo ∧ rs.tx.qty = t.qty)
    ∧ df_quantity_analysis nameRef comboRef txs
        = (leftMergeAll (df_name_ref_clean nameRef)
            (txs.filter (fun u => !(isComboName comboRef u.itemName)))).map viewToQstr
          ++ explodeAllSA (dedupByReal (df_name_ref_clean nameRef)) comboRef
              (txs.filter (fun u => isComboName comboRef u.itemName)) := by
  refine ⟨?_, ?_, ?_, ?_, ?_, ?_, ?_, ?_⟩
  · simp [explodedRowsD, explodeTxD]
  · unfold explodedRowsD explodeTxD
    rw [List.map_map, List.map_map]
    apply List.map_congr_left
    intro c hc2
    show (fillSub (emitDash (df_name_ref_clean nameRef) t c)).realItemName = c.realItemName
    rw [fillSub_real, emitDash_real]
  · unfold explodedRowsD explodeTxD at hr
    rcases List.mem_map.mp hr with ⟨q0, hq0, hfq⟩
    rcases List.mem_map.mp hq0 with ⟨c, hcm, he⟩
    have htx : r.tx = { t with qty := optMul t.qty 1 } := by
      rw [← hfq, fillSub_tx, ← he, emitDash_tx]
    rw [htx]
    exact ⟨rfl, optMul_one t.qty⟩
  · unfold df_quantity_dashboard
    rw [List.map_append, List.map_map, explodeAll_map_fill]
    rfl
  · simp [explodeTxSA]
  · unfold explodeTxSA
    rw [List.map_map]
    apply List.map_congr_left
    intro c hc2
    show (emitSA (dedupByReal (df_name_ref_clean nameRef)) t c).realItemName = c.realItemName
    rw [emitSA_real]
  · unfold explodeTxSA at hrs
    rcases List.mem_map.mp hrs with ⟨c, hcm, he⟩
    have htx : rs.tx = { t with qty := optMul t.qty 1 } := by
      rw [← he, emitSA_tx]
    rw [htx]
    exact ⟨rfl, optMul_one t.qty⟩
  · rfl

def comboRef2 : List ComboRefRow :=
  [{ itemName := "Combo-A", realItemName := some "Item-X", category := none, subCat := none },
   { itemName := "Combo-A", realItemName := some "Item-Y", category := none, subCat := none },
   { itemName := "Combo-B", realItemName := some "Item-Z", category := none, subCat := none }]

def tx2 : TxRow :=
  { invoiceNo := "INV1", itemName := "Combo-A", status := "Success", date := none,
    timestamp := none, outlet := "Main", salesChannel := "In-Shop", price := none,
    qty := none, subTotal := none, discount := none, tax := none, finalTotal := none }

def row2 : QRow :=
  { tx := tx2, realItemName := some "Item-X", parentCategory := none,
    subCategory := "Item-X" }

def row2sa : QRow :=
  { tx := tx2, realItemName := some "Item-X", parentCategory := some "Unknown",
    subCategory := "Unknown" }

/-- Witness for claim C2 at a concrete two-component combo, covering
both builders. -/
theorem C2_component_completeness_witness :
    (explodedRowsD [] comboRef2 tx2).length
        = (comboRef2.filter (fun c => c.itemName = tx2.itemName)).length
    ∧ (explodedRowsD [] comboRef2 tx2).map (fun q => q.realItemName)
        = (comboRef2.filter (fun c => c.itemName = tx2.itemName)).map (fun c => c.realItemName)
    ∧ (row2.tx.invoiceNo = tx2.invoiceNo ∧ row2.tx.qty = tx2.qty)
    ∧ df_quantity_dashboard [] comboRef2 [tx2]
        = (leftMergeAll (df_name_ref_clean [])
            ([tx2].filter (fun u => !(isComboName comboRef2 u.itemName)))).map
              (fun v => fillSub (viewToQ v))
          ++ explodedRowsAllD [] comboRef2
              ([tx2].filter (fun u => isComboName comboRef2 u.itemName))
    ∧ (explodeTxSA (dedupByReal (df_name_ref_clean [])) comboRef2 tx2).length
        = (comboRef2.filter (fun c => c.itemName = tx2.itemName)).length
    ∧ (explodeTxSA (dedupByReal (df_name_ref_clean [])) comboRef2 tx2).map
          (fun q => q.realItemName)
        = (comboRef2.filter (fun c => c.itemName = tx2.itemName)).map (fun c => c.realItemName)
    ∧ (row2sa.tx.invoiceNo = tx2.invoiceNo ∧ row2sa.tx.qty = tx2.qty)
    ∧ df_quantity_analysis [] comboRef2 [tx2]
        = (leftMergeAll (df_name_ref_clean [])
            ([tx2].filter (fun u => !(isComboName comboRef2 u.itemName)))).map viewToQstr
          ++ explodeAllSA (dedupByReal (df_name_ref_clean [])) comboRef2
              ([tx2].filter (fun u => isComboName comboRef2 u.itemName)) :=
  C2_component_completeness [] comboRef2 tx2 (by decide) row2 (by decide)
    row2sa (by decide) [tx2]

def comboRef3 : List ComboRefRow :=
  [{ itemName := "Combo-A", realItemName := some "Item-X", category := none, subCat := none }]

def tx3 : TxRow :=
  { invoiceNo := "I3", itemName := "Combo-Z", status := "Success", date := none,
    timestamp := none, outlet := "Main", salesChannel := "In-Shop", price := none,
    qty := none, subTotal := none, discount := none, tax := none, finalTotal := none }

/-- Counterexample to claim C3: the combo name Combo-Z has zero matching
component rows, yet the successful pipeline result is just the two views
with no diagnostic, and the Combo-Z transaction sits in the quantity
view unexploded, enriched through the ordinary item join. -/
theorem C3_counterexample :
    comboRef3.filter (fun c => c.itemName = tx3.itemName) = []
    ∧ df_quantity_dashboard [] comboRef3 [tx3]
        = [{ tx := tx3, realItemName := some "Combo-Z",
             parentCategory := some "Unknown", subCategory := "Unknown" }]
    ∧ load_data { hasStatus := true, rows := [] } [] comboRef3
        = Except.ok ([], []) := by
  refine ⟨by decide, by decide, by rfl⟩

/-- When the merge collapses to a single row, that row belongs to the
merged list whenever its transaction belongs to the input list. -/
theorem mergeOne_mem_leftMergeAll (nameRef : List NameRefRow) (l : List TxRow)
    (t : TxRow) (ht : t ∈ l) :
    mergeOne (df_name_ref_clean nameRef) t ∈ leftMergeAll (df_name_ref_clean nameRef) l := by
  induction l with
  | nil => simp at ht
  | cons u us ih =>
    rw [leftMergeAll]
    rcases List.mem_cons.mp ht with h | h
    · subst h
      rw [leftMergeName_clean]
      exact List.mem_append_left _ (List.mem_singleton_self _)
    · exact List.mem_append_right _ (ih h)

/-- Claim C3 as amended: a transaction whose item name has zero matching
component rows in the combo reference is simply not a combo item, so it
is routed through the non-combo join and appears in the quantity view
unexploded; nothing is excluded and no diagnostic exists, since a
successful pipeline result carries only the two views. -/
theorem C3_zero_component_not_flagged (nameRef : List NameRefRow)
    (comboRef : List ComboRefRow) (txs : List TxRow) (t : TxRow) (ht : t ∈ txs)
    (hzero : comboRef.filter (fun c => c.itemName = t.itemName) = []) :
    fillSub (viewToQ (mergeOne (df_name_ref_clean nameRef) t))
      ∈ df_quantity_dashboard nameRef comboRef txs := by
  have hnone : ∀ c ∈ comboRef, ¬ (c.itemName = t.itemName) := by
    intro c hc
    have := List.filter_eq_nil_iff.mp hzero c hc
    simpa using this
  have hnc : isComboName comboRef t.itemName = false := by
    unfold isComboName
    rw [List.any_eq_false]
    intro c hc
    simpa using hnone c hc
  unfold df_quantity_dashboard
  apply List.mem_map_of_mem
  apply List.mem_append_left
  apply List.mem_map_of_mem
  apply mergeOne_mem_leftMergeAll
  apply List.mem_filter.mpr
  exact ⟨ht, by rw [hnc]; rfl⟩

/-- Witness for the amended claim C3 at the concrete Combo-Z input. -/
theorem C3_zero_component_not_flagged_witness :
    fillSub (viewToQ (mergeOne (df_name_ref_clean []) tx3))
      ∈ df_quantity_dashboard [] comboRef3 [tx3] :=
  C3_zero_component_not_flagged [] comboRef3 [tx3] tx3 (List.mem_singleton_self tx3)
    (by decide)

def nameRef4 : List NameRefRow :=
  [{ item := "Item-A", realName := some "Apple Pie", parent := some "Food",
     subCat := some "Dessert" }]

def comboRef4 : List ComboRefRow :=
  [{ itemName := "Combo-W", realItemName := some "Widget", category := some "HintCat",
     subCat := some "HintSub" }]

def tx4 : TxRow :=
  { invoiceNo := "I4", itemName := "Combo-W", status := "Success", date := none,
    timestamp := none, outlet := "Main", salesChannel := "In-Shop", price := none,
    qty := none, subTotal := none, discount := none, tax := none, finalTotal := none }

/-- Counterexample to claim C4: in the script builder, a component
absent from the item reference gets parent and sub category Unknown even
though the combo reference carries category hints for it; the claimed
fallback to the hint, and to the component name as sub category, never
happens there. -/
theorem C4_counterexample :
    df_quantity_analysis nameRef4 comboRef4 [tx4]
      = [{ tx := tx4, realItemName := some "Widget",
           parentCategory := some "Unknown", subCategory := "Unknown" }]
    ∧ (df_quantity_analysis nameRef4 comboRef4 [tx4]).map (fun r => r.subCategory)
        ≠ ["HintSub"]
    ∧ (df_quantity_analysis nameRef4 comboRef4 [tx4]).map (fun r => r.subCategory)
        ≠ ["Widget"] := by
  refine ⟨by decide, by decide, by decide⟩

/-- Claim C4 as amended: the claimed resolution order holds for the
dashboard builder — item reference first, then the combo reference
hints, with the component canonical name (or Unknown) as last-resort sub
category — while the script builder resolves exploded categories only
through the item reference keyed by canonical name, defaulting to
Unknown and Unknown for unmapped components. -/
theorem C4_category_resolution_order
    (nc : List NameRefRow) (t : TxRow) (c : ComboRefRow) (m : NameRefRow)
    (ms : List NameRefRow)
    (h1 : nc.filter (fun n => optEqStr n.realName c.realItemName) = m :: ms)
    (nc2 : List NameRefRow) (u : TxRow) (d : ComboRefRow)
    (h2 : nc2.filter (fun n => optEqStr n.realName d.realItemName) = [])
    (saRef : List NameRefRow) (w : TxRow) (e : ComboRefRow)
    (h3 : saRef.filter (fun n => mergeEqStr n.realName e.realItemName) = []) :
    ((emitDash nc t c).parentCategory = m.parent
      ∧ (emitDash nc t c).subCategory = m.subCat)
    ∧ ((emitDash nc2 u d).parentCategory = d.category
      ∧ (fillSub (emitDash nc2 u d)).subCategory
          = d.subCat.getD (d.realItemName.getD "Unknown"))
    ∧ ((emitSA saRef w e).parentCategory = some "Unknown"
      ∧ (emitSA saRef w e).subCategory = "Unknown") := by
  refine ⟨?_, ?_, ?_⟩
  · unfold emitDash
    rw [h1]
    exact ⟨rfl, rfl⟩
  · unfold emitDash
    rw [h2]
    refine ⟨rfl, ?_⟩
    cases d.subCat with
    | some s => rfl
    | none =>
      show (d.realItemName).getD "Unknown" = (d.realItemName).getD "Unknown"
      rfl
  · unfold emitSA
    rw [h3]
    exact ⟨rfl, rfl⟩

def nameRef4w : List NameRefRow :=
  [{ item := "Item-A", realName := some "Widget", parent := some "Food",
     subCat := some "Dessert" }]

def comboRow4w : ComboRefRow :=
  { itemName := "Combo-W", realItemName := some "Widget", category := some "HintCat",
    subCat := some "HintSub" }

/-- Witness for the amended claim C4 at concrete inputs covering all
three branches of the resolution. -/
theorem C4_category_resolution_order_witness :
    ((emitDash nameRef4w tx4 comboRow4w).parentCategory = some "Food"
      ∧ (emitDash nameRef4w tx4 comboRow4w).subCategory = some "Dessert")
    ∧ ((emitDash [] tx4 comboRow4w).parentCategory = some "HintCat"
      ∧ (fillSub (emitDash [] tx4 comboRow4w)).subCategory = "HintSub")
    ∧ ((emitSA [] tx4 comboRow4w).parentCategory = some "Unknown"
      ∧ (emitSA [] tx4 comboRow4w).subCategory = "Unknown") :=
  C4_category_resolution_order nameRef4w tx4 comboRow4w
    { item := "Item-A", realName := some "Widget", parent := some "Food",
      subCat := some "Dessert" } [] (by decide)
    [] tx4 comboRow4w (by decide)
    [] tx4 comboRow4w (by decide)

def rawFail6 : RawRow :=
  { invoiceNo := "I6", itemName := "Tea", status := "Failed", date := none,
    timestamp := none, area := "Shop", outlet := none, price := Cell.null,
    qty := Cell.null, subTotal := Cell.null, discount := Cell.null, tax := Cell.null,
    finalTotal := Cell.null }

/-- Counterexample to claim C6: a source whose only transaction has
status Failed leaves zero Success rows after filtering, yet the loader
returns empty views as an ordinary success instead of signaling a
data-unavailable failure. -/
theorem C6_counterexample :
    load_data { hasStatus := true, rows := [rawFail6] } [] [] = Except.ok ([], []) := by
  rfl

/-- Claim C6 as amended: a missing status field does surface as an error
result, but a source with a status field and no Success rows yields an
empty pair of views wrapped in an ordinary success, with no failure
signal. -/
theorem C6_cleaner_failure_signaling
    (raw1 : RawSales) (n1 : List NameRefRow) (c1 : List ComboRefRow)
    (h1 : raw1.hasStatus = false)
    (raw2 : RawSales) (n2 : List NameRefRow) (c2 : List ComboRefRow)
    (h2 : raw2.hasStatus = true) (h2b : ∀ r ∈ raw2.rows, ¬ r.status = "Success") :
    load_data raw1 n1 c1 = Except.error "KeyError: Status"
    ∧ load_data raw2 n2 c2 = Except.ok ([], []) := by
  constructor
  · unfold load_data cleanSales
    rw [h1]
    rfl
  · have hf : raw2.rows.filter (fun r => r.status = "Success") = [] := by
      apply List.filter_eq_nil_iff.mpr
      intro r hr
      simpa using h2b r hr
    unfold load_data cleanSales
    rw [h2, if_pos rfl, hf]
    rfl

/-- Witness for the amended claim C6 at concrete inputs: one source
without a status column, one whose single row has status Failed. -/
theorem C6_cleaner_failure_signaling_witness :
    load_data { hasStatus := false, rows := [] } [] [] = Except.error "KeyError: Status"
    ∧ load_data { hasStatus := true, rows := [rawFail6] } [] [] = Except.ok ([], []) :=
  C6_cleaner_failure_signaling { hasStatus := false, rows := [] } [] [] (by decide)
    { hasStatus := true, rows := [rawFail6] } [] [] (by decide) (by decide)

/-- Membership characterization of the cleaner output: a cleaned row is
exactly the image of a raw row whose status is Success. -/
theorem cleanSales_mem (s : RawSales) (cl : List TxRow)
    (h : cleanSales s = Except.ok cl) (u : TxRow) :
    u ∈ cl ↔ ∃ r, r ∈ s.rows ∧ r.status = "Success" ∧ u = cleanRow r := by
  unfold cleanSales at h
  by_cases hs : s.hasStatus = true
  · rw [if_pos hs] at h
    injection h with h
    subst h
    constructor
    · intro hu
      rcases List.mem_map.mp hu with ⟨r, hrf, he⟩
      rcases List.mem_filter.mp hrf with ⟨hr, hp⟩
      exact ⟨r, hr, by simpa using hp, he.symm⟩
    · rintro ⟨r, hr, hst, he⟩
      rw [he]
      exact List.mem_map_of_mem _ (List.mem_filter.mpr ⟨hr, by simpa using hst⟩)
  · rw [if_neg hs] at h
    cases h

/-- Every cleaned row has status Success. -/
theorem cleanSales_status (s : RawSales) (cl : List TxRow)
    (h : cleanSales s = Except.ok cl) : ∀ t ∈ cl, t.status = "Success" := by
  intro t ht
  rcases (cleanSales_mem s cl h t).mp ht with ⟨r, _, hst, he⟩
  rw [he]
  exact hst

/-- Any row the one-transaction merge produces carries that transaction. -/
theorem mem_leftMergeName_tx (ref : List NameRefRow) (t : TxRow) (v : ViewRow)
    (h : v ∈ leftMergeName ref t) : v.tx = t := by
  unfold leftMergeName at h
  cases hf : ref.filter (fun n => n.item = t.itemName) with
  | nil =>
    rw [hf] at h
    rw [List.mem_singleton.mp h]
    rfl
  | cons m ms =>
    rw [hf] at h
    rcases List.mem_map.mp h with ⟨n, _, he⟩
    rw [← he]
    rfl

/-- Any row of the merged list carries a transaction of the input list. -/
theorem mem_leftMergeAll_tx (ref : List NameRefRow) (l : List TxRow) (v : ViewRow)
    (h : v ∈ leftMergeAll ref l) : ∃ t, t ∈ l ∧ v.tx = t := by
  induction l with
  | nil => simp [leftMergeAll] at h
  | cons t ts ih =>
    rw [leftMergeAll] at h
    rcases List.mem_append.mp h with h | h
    · exact ⟨t, List.mem_cons_self t ts, mem_leftMergeName_tx ref t v h⟩
    · rcases ih h with ⟨u, hu, he⟩
      exact ⟨u, List.mem_cons_of_mem t hu, he⟩

/-- Any row of the dashboard explosion carries a transaction of the
input list, with only the quantity rewritten. -/
theorem mem_explodeAllD_tx (nc : List NameRefRow) (cr : List ComboRefRow)
    (l : List TxRow) (q : QRowOpt) (h : q ∈ explodeAllD nc cr l) :
    ∃ t, t ∈ l ∧ q.tx = { t with qty := optMul t.qty 1 } := by
  induction l with
  | nil => simp [explodeAllD] at h
  | cons t ts ih =>
    rw [explodeAllD] at h
    rcases List.mem_append.mp h with h | h
    · unfold explodeTxD at h
      rcases List.mem_map.mp h with ⟨c, _, he⟩
      exact ⟨t, List.mem_cons_self t ts, by rw [← he, emitDash_tx]⟩
    · rcases ih h with ⟨u, hu, he⟩
      exact ⟨u, List.mem_cons_of_mem t hu, he⟩

/-- Every revenue view row inherits the status of its transaction list. -/
theorem rv_status (nameRef : List NameRefRow) (txs : List TxRow)
    (hst : ∀ t ∈ txs, t.status = "Success") (v : ViewRow)
    (hv : v ∈ df_revenue_analysis nameRef txs) : v.tx.status = "Success" := by
  unfold df_revenue_analysis at hv
  rcases mem_leftMergeAll_tx _ _ _ hv with ⟨t, htl, he⟩
  rw [he]
  exact hst t htl

/-- Every dashboard quantity view row inherits the status of its
transaction list. -/
theorem qrow_status (nameRef : List NameRefRow) (comboRef : List ComboRefRow)
    (txs : List TxRow) (hst : ∀ t ∈ txs, t.status = "Success") (q : QRow)
    (hq : q ∈ df_quantity_dashboard nameRef comboRef txs) : q.tx.status = "Success" := by
  unfold df_quantity_dashboard at hq
  rcases List.mem_map.mp hq with ⟨q0, hq0, hfq⟩
  rcases List.mem_append.mp hq0 with h | h
  · rcases List.mem_map.mp h with ⟨v, hv, hvq⟩
    rcases mem_leftMergeAll_tx _ _ _ hv with ⟨t, htl, he⟩
    have ht : t ∈ txs := List.mem_of_mem_filter htl
    rw [← hfq, fillSub_tx, ← hvq]
    show (viewToQ v).tx.status = "Success"
    have : (viewToQ v).tx = v.tx := rfl
    rw [this, he]
    exact hst t ht
  · rcases mem_explodeAllD_tx _ _ _ _ h with ⟨t, htl, he⟩
    have ht : t ∈ txs := List.mem_of_mem_filter htl
    rw [← hfq, fillSub_tx, he]
    show t.status = "Success"
    exact hst t ht

/-- Claim C8: status filtering. A raw transaction row is retained by the
cleaner exactly when its status equals Success, and every row of both
views produced by the loader carries status Success, so a row with
status Failed appears in neither view. -/
theorem C8_status_filtering
    (s : RawSales) (cl : List TxRow) (hcl : cleanSales s = Except.ok cl) (u : TxRow)
    (raw : RawSales) (nameRef : List NameRefRow) (comboRef : List ComboRefRow)
    (rv : List ViewRow) (qv : List QRow)
    (hld : load_data raw nameRef comboRef = Except.ok (rv, qv))
    (v : ViewRow) (hv : v ∈ rv) (q : QRow) (hq : q ∈ qv) :
    (u ∈ cl ↔ ∃ r, r ∈ s.rows ∧ r.status = "Success" ∧ u = cleanRow r)
    ∧ v.tx.status = "Success" ∧ q.tx.status = "Success" := by
  refine ⟨cleanSales_mem s cl hcl u, ?_⟩
  unfold load_data at hld
  cases hcs : cleanSales raw with
  | error e =>
    rw [hcs] at hld
    cases hld
  | ok txs =>
    rw [hcs] at hld
    injection hld with hld
    have h1 : df_revenue_analysis nameRef txs = rv := congrArg Prod.fst hld
    have h2 : df_quantity_dashboard nameRef comboRef txs = qv := congrArg Prod.snd hld
    have hst := cleanSales_status raw txs hcs
    rw [← h1] at hv
    rw [← h2] at hq
    exact ⟨rv_status nameRef txs hst v hv, qrow_status nameRef comboRef txs hst q hq⟩

def rawSucc8 : RawRow :=
  { invoiceNo := "I8", itemName := "Tea", status := "Success", date := none,
    timestamp := none, area := "Shop", outlet := none, price := Cell.null,
    qty := Cell.null, subTotal := Cell.null, discount := Cell.null, tax := Cell.null,
    finalTotal := Cell.null }

def rawFail8 : RawRow :=
  { invoiceNo := "I8b", itemName := "Cake", status := "Failed", date := none,
    timestamp := none, area := "Shop", outlet := none, price := Cell.null,
    qty := Cell.null, subTotal := Cell.null, discount := Cell.null, tax := Cell.null,
    finalTotal := Cell.null }

def raw8 : RawSales := { hasStatus := true, rows := [rawFail8, rawSucc8] }

/-- Witness for claim C8 at a concrete source with one Failed and one
Success row. -/
theorem C8_status_filtering_witness :
    (cleanRow rawSucc8 ∈ [cleanRow rawSucc8]
      ↔ ∃ r, r ∈ raw8.rows ∧ r.status = "Success" ∧ cleanRow rawSucc8 = cleanRow r)
    ∧ (fallbackRow (cleanRow rawSucc8)).tx.status = "Success"
    ∧ (fillSub (viewToQ (fallbackRow (cleanRow rawSucc8)))).tx.status = "Success" :=
  C8_status_filtering raw8 [cleanRow rawSucc8] (by rfl) (cleanRow rawSucc8)
    raw8 [] [] [fallbackRow (cleanRow rawSucc8)]
    [fillSub (viewToQ (fallbackRow (cleanRow rawSucc8)))] (by rfl)
    (fallbackRow (cleanRow rawSucc8)) (List.mem_singleton_self _)
    (fillSub (viewToQ (fallbackRow (cleanRow rawSucc8)))) (List.mem_singleton_self _)

end VDD
